import Mathlib

set_option autoImplicit false

namespace McpSdk

/-! Shallow embedding of the mcp-protocol-sdk runtime: JSON-RPC data model
(src/protocol/types.rs), the WebSocket client and server transports
(src/transport/websocket.rs), the server request router
(src/server/mcp_server.rs), the server lifecycle manager
(src/server/lifecycle.rs), the client session (src/client/session.rs)
and the HTTP client transport id counter (src/transport/http.rs). -/

/-- Request id, embedding `pub type RequestId = serde_json::Value;
// string | number | null` (src/protocol/types.rs:28). Only the three legal
id shapes are modelled. -/
inductive RpcId where
  | null
  | num (n : Int)
  | str (s : String)
deriving DecidableEq, Repr

/-- A `serde_json::Value` payload. Only the structure the verified code
builds or inspects is needed: the router wraps handler errors in an object
`{error: {code, message}}` (src/server/mcp_server.rs:548-553). -/
inductive JsonV where
  | null
  | bool (b : Bool)
  | num (n : Int)
  | str (s : String)
  | arr (elems : List JsonV)
  | obj (fields : List (String × JsonV))

/-- `JsonRpcRequest` (src/protocol/types.rs:585-595). -/
structure JsonRpcRequestM where
  jsonrpc : String
  id : RpcId
  method : String
  params : Option JsonV

/-- `JsonRpcResponse` (src/protocol/types.rs:599-607): id plus optional
`result`; this SDK revision carries errors inside `result`. -/
structure JsonRpcResponseM where
  jsonrpc : String
  id : RpcId
  result : Option JsonV

/-- `JsonRpcNotification` (src/protocol/types.rs:634-642). -/
structure JsonRpcNotificationM where
  jsonrpc : String
  method : String
  params : Option JsonV

/-- Modelled from the spec: the error taxonomy of §7 (`src/core/error.rs` is
not among the provided sources; only the variants the verified code
constructs or matches on are included). -/
inductive McpErrorM where
  | Protocol (msg : String)
  | Validation (msg : String)
  | Connection (msg : String)
  | ToolNotFound (msg : String)
  | ResourceNotFound (msg : String)
  | PromptNotFound (msg : String)
  | Serialization (msg : String)
  | WebSocket (msg : String)
  | Http (msg : String)
deriving DecidableEq, Repr

/-- Modelled from the spec: the `Display` rendering of `McpError`
(`src/core/error.rs` is absent); the claims only depend on the rendered
text being some string, so the payload message is used as-is. -/
def mcpErrorMessage : McpErrorM → String
  | .Protocol m => m
  | .Validation m => m
  | .Connection m => m
  | .ToolNotFound m => m
  | .ResourceNotFound m => m
  | .PromptNotFound m => m
  | .Serialization m => m
  | .WebSocket m => m
  | .Http m => m

/-- `ConnectionState` of the transport layer as used by the WebSocket client
(src/transport/websocket.rs:84,144,163,241,256). -/
inductive ConnState where
  | Connecting
  | Connected
  | Disconnected
  | Closing
  | Error (msg : String)
deriving DecidableEq, Repr

-- ============================================================================
-- WebSocket client transport: pending-request table and receive loop
-- ============================================================================

/-- Token standing for one `tokio::sync::oneshot::Sender<JsonRpcResponse>`:
the waiting caller a pending entry will be fulfilled through. -/
abbrev CallerId := Nat

/-- The `pending_requests: HashMap<Value, oneshot::Sender<_>>` of
`WebSocketClientTransport` (src/transport/websocket.rs:37), modelled as an
association list keyed by request id. -/
abbrev PendingTable := List (RpcId × CallerId)

/-- `HashMap::get`-style lookup on the pending table. -/
def pendingLookup : PendingTable → RpcId → Option CallerId
  | [], _ => none
  | (k, v) :: rest, id => if k = id then some v else pendingLookup rest id

/-- `HashMap::remove` on the pending table. -/
def pendingErase (t : PendingTable) (id : RpcId) : PendingTable :=
  t.filter (fun e => !(e.1 == id))

/-- `HashMap::insert` on the pending table: replaces any entry at the key
(src/transport/websocket.rs:193). -/
def pendingInsert (t : PendingTable) (id : RpcId) (c : CallerId) : PendingTable :=
  (id, c) :: pendingErase t id

/-- Outcome of `serde_json::from_str` on an inbound text frame: the receive
loop first tries `JsonRpcResponse`, then `JsonRpcNotification`, else the
frame is unparsable (src/transport/websocket.rs:117,131,138). -/
inductive ParsedText where
  | resp (r : JsonRpcResponseM)
  | notif (n : JsonRpcNotificationM)
  | malformed (raw : String)

/-- One inbound `tungstenite::Message` as classified by the receive loop
(src/transport/websocket.rs:112-166). -/
inductive WsMessage where
  | text (t : ParsedText)
  | closeFrame
  | ping
  | pong
  | binary
  | frame
  | wsError (msg : String)

/-- State touched by `WebSocketClientTransport::handle_messages`: the shared
pending table, the shared connection state, whether the notification
channel receiver is still alive, plus observation logs: `delivered`
records each response handed to the oneshot sender stored for its id, and
`notifQueue` the notifications forwarded to the notification channel. -/
structure RecvState where
  pending : PendingTable
  connState : ConnState
  notifOpen : Bool
  delivered : List (CallerId × JsonRpcResponseM)
  notifQueue : List JsonRpcNotificationM

/-- One iteration of the `while let` loop in
`WebSocketClientTransport::handle_messages`
(src/transport/websocket.rs:111-167). Returns the new state and whether
the loop continues. A response whose id matches a pending entry fulfills
and removes that entry; an unmatched response is logged and dropped with
the loop continuing; a notification is forwarded while the channel
receiver is alive; Close sets Disconnected and exits; an error sets the
Error state and exits. -/
def handleOneMessage (st : RecvState) (m : WsMessage) : RecvState × Bool :=
  match m with
  | .text (.resp r) =>
      match pendingLookup st.pending r.id with
      | some c =>
          ({ st with pending := pendingErase st.pending r.id,
                     delivered := st.delivered ++ [(c, r)] }, true)
      | none => (st, true)
  | .text (.notif n) =>
      if st.notifOpen then
        ({ st with notifQueue := st.notifQueue ++ [n] }, true)
      else
        (st, false)
  | .text (.malformed _) => (st, true)
  | .closeFrame => ({ st with connState := .Disconnected }, false)
  | .ping => (st, true)
  | .pong => (st, true)
  | .binary => (st, true)
  | .frame => (st, true)
  | .wsError e => ({ st with connState := .Error e }, false)

/-- The receive loop of `handle_messages` run over a finite inbound message
sequence, stopping when an iteration breaks. -/
def handleMessages : RecvState → List WsMessage → RecvState
  | st, [] => st
  | st, m :: ms =>
      let step := handleOneMessage st m
      if step.2 then handleMessages step.1 ms else step.1

/-- How the caller-side wait of `send_request` ended
(src/transport/websocket.rs:207-210): the oneshot fired, the timeout
elapsed, or the oneshot channel closed. -/
inductive WaitOutcome where
  | fulfilled
  | timedOut
  | channelClosed

/-- The table mutation `send_request` performs before transmitting: insert
the oneshot sender under the request id
(src/transport/websocket.rs:190-194). -/
def sendRequestRegister (t : PendingTable) (id : RpcId) (c : CallerId) : PendingTable :=
  pendingInsert t id c

/-- The table mutation performed by the tail of `send_request` once the wait
ends (src/transport/websocket.rs:204-212): none — the timeout and
channel-closed paths only map the error, and the fulfilled path relies on
the receive loop having already removed the entry. The pending table is
returned unchanged on every outcome. -/
def sendRequestFinishPending (t : PendingTable) (_id : RpcId) (_outcome : WaitOutcome) :
    PendingTable :=
  t

/-- Keys of the pending table are pairwise distinct. -/
def keysNodup (t : PendingTable) : Prop :=
  (t.map Prod.fst).Nodup

-- ============================================================================
-- WebSocket server transport: notification broadcast
-- ============================================================================

/-- The server-side registry `clients: HashMap<String, WebSocketConnection>`
(src/transport/websocket.rs:288), modelled as an association list from
client id to whether a send on that connection's sink currently succeeds
(`true`) or fails because the peer is gone (`false`). -/
abbrev ClientRegistry := List (String × Bool)

/-- The removal pass at the end of `send_notification`: each collected
disconnected id is removed from the registry
(src/transport/websocket.rs:602-605). -/
def removeClientIds (clients : ClientRegistry) (ids : List String) : ClientRegistry :=
  ids.foldl (fun acc i => acc.filter (fun c => !(c.1 == i))) clients

/-- `WebSocketServerTransport::send_notification`
(src/transport/websocket.rs:584-608): iterate every registered connection,
attempt the send, collect the ids whose send failed, remove exactly those
ids, and return `Ok(())` regardless. Yields (ids delivered to, registry
afterwards, operation result). -/
def wsBroadcast (clients : ClientRegistry) :
    List String × ClientRegistry × Except McpErrorM Unit :=
  let delivered := (clients.filter (fun c => c.2)).map Prod.fst
  let disconnected := (clients.filter (fun c => !c.2)).map Prod.fst
  (delivered, removeClientIds clients disconnected, Except.ok ())

-- ============================================================================
-- Server request router (McpServer::handle_request)
-- ============================================================================

/-- JSON-RPC error codes (src/protocol/types.rs:933-948). -/
def PARSE_ERROR : Int := -32700

/-- Invalid request error code (src/protocol/types.rs:937). -/
def INVALID_REQUEST : Int := -32600

/-- Method-not-found error code (src/protocol/types.rs:939). -/
def METHOD_NOT_FOUND : Int := -32601

/-- Invalid params error code (src/protocol/types.rs:941). -/
def INVALID_PARAMS : Int := -32602

/-- Internal error code (src/protocol/types.rs:943). -/
def INTERNAL_ERROR : Int := -32603

/-- Tool-not-found error code (src/protocol/types.rs:946). -/
def TOOL_NOT_FOUND : Int := -32000

/-- Resource-not-found error code (src/protocol/types.rs:947). -/
def RESOURCE_NOT_FOUND : Int := -32001

/-- Prompt-not-found error code (src/protocol/types.rs:948). -/
def PROMPT_NOT_FOUND : Int := -32002

/-- The method names `McpServer::handle_request` routes on
(src/protocol/methods.rs, src/server/mcp_server.rs:515-528). -/
def routedMethods : List String :=
  ["initialize", "ping", "tools/list", "tools/call", "resources/list",
   "resources/read", "resources/subscribe", "resources/unsubscribe",
   "prompts/list", "prompts/get", "logging/setLevel"]

/-- Modelled from the spec: `validate_jsonrpc_request`
(src/protocol/validation.rs is not among the provided sources). §4.5: the
router "validates the envelope (JSON-RPC version, method name
non-empty)". -/
def validateJsonrpcRequest (req : JsonRpcRequestM) : Except McpErrorM Unit :=
  if req.jsonrpc ≠ "2.0" then
    Except.error (.Validation "Invalid JSON-RPC version")
  else if req.method = "" then
    Except.error (.Validation "Method name must not be empty")
  else
    Except.ok ()

/-- Modelled from the spec: `validate_mcp_request`
(src/protocol/validation.rs is not among the provided sources). §4.5: the
router "validates method-specific parameters"; the routed methods whose
handlers demand parameters (src/server/mcp_server.rs:562-732) must carry
them. Per §4.5 an unknown method is not rejected here — "Unknown methods
produce a protocol error response rather than throwing" — so unknown
methods pass through to the routing match. -/
def validateMcpRequest (method : String) (params : Option JsonV) : Except McpErrorM Unit :=
  let needsParams : Bool :=
    method == "initialize" || method == "tools/call" || method == "resources/read" ||
    method == "resources/subscribe" || method == "resources/unsubscribe" ||
    method == "prompts/get" || method == "logging/setLevel"
  if needsParams && params.isNone then
    Except.error (.Validation ("Missing parameters for method: " ++ method))
  else
    Except.ok ()

/-- The per-method handlers the router dispatches to
(src/server/mcp_server.rs:516-528). Their outcomes depend on the
registries and the handler objects installed on the server, so they are
carried as structure fields; the router itself never inspects them beyond
the `McpResult` they return. -/
structure McpHandlers where
  onInitialize : Option JsonV → Except McpErrorM JsonV
  onPing : Unit → Except McpErrorM JsonV
  onToolsList : Option JsonV → Except McpErrorM JsonV
  onToolsCall : Option JsonV → Except McpErrorM JsonV
  onResourcesList : Option JsonV → Except McpErrorM JsonV
  onResourcesRead : Option JsonV → Except McpErrorM JsonV
  onResourcesSubscribe : Option JsonV → Except McpErrorM JsonV
  onResourcesUnsubscribe : Option JsonV → Except McpErrorM JsonV
  onPromptsList : Option JsonV → Except McpErrorM JsonV
  onPromptsGet : Option JsonV → Except McpErrorM JsonV
  onLoggingSetLevel : Option JsonV → Except McpErrorM JsonV

/-- The error-to-code mapping of the response conversion in
`handle_request` (src/server/mcp_server.rs:539-545). -/
def errorToCode : McpErrorM → Int
  | .ToolNotFound _ => TOOL_NOT_FOUND
  | .ResourceNotFound _ => RESOURCE_NOT_FOUND
  | .PromptNotFound _ => PROMPT_NOT_FOUND
  | .Validation _ => INVALID_PARAMS
  | _ => INTERNAL_ERROR

/-- `JsonRpcResponse::success` (src/protocol/types.rs:877-889). -/
def responseSuccess (id : RpcId) (v : JsonV) : JsonRpcResponseM :=
  { jsonrpc := "2.0", id := id, result := some v }

/-- The `json!({"error": {"code": .., "message": ..}})` payload the router
embeds in the result on failure (src/server/mcp_server.rs:548-553). -/
def jsonErrorPayload (code : Int) (message : String) : JsonV :=
  .obj [("error", .obj [("code", .num code), ("message", .str message)])]

/-- The routing match of `handle_request` (src/server/mcp_server.rs:515-533):
dispatch by method name to exactly one handler, unknown methods yield
`Err(McpError::Protocol("Unknown method: ..."))`. -/
def routeRequest (h : McpHandlers) (req : JsonRpcRequestM) : Except McpErrorM JsonV :=
  if req.method = "initialize" then h.onInitialize req.params
  else if req.method = "ping" then h.onPing ()
  else if req.method = "tools/list" then h.onToolsList req.params
  else if req.method = "tools/call" then h.onToolsCall req.params
  else if req.method = "resources/list" then h.onResourcesList req.params
  else if req.method = "resources/read" then h.onResourcesRead req.params
  else if req.method = "resources/subscribe" then h.onResourcesSubscribe req.params
  else if req.method = "resources/unsubscribe" then h.onResourcesUnsubscribe req.params
  else if req.method = "prompts/list" then h.onPromptsList req.params
  else if req.method = "prompts/get" then h.onPromptsGet req.params
  else if req.method = "logging/setLevel" then h.onLoggingSetLevel req.params
  else Except.error (.Protocol ("Unknown method: " ++ req.method))

/-- `McpServer::handle_request` (src/server/mcp_server.rs:507-556): when
`config.validate_requests` is set, the two validation calls are made with
`?` — their failures propagate out of `handle_request`. The routing result
is then converted: a success becomes `JsonRpcResponse::success(request.id,
value)`; a routing/handler error becomes a *success-shaped* response whose
result embeds `{error: {code, message}}`, with the id preserved. -/
def handleRequest (h : McpHandlers) (validateRequests : Bool) (req : JsonRpcRequestM) :
    Except McpErrorM JsonRpcResponseM :=
  let validated : Except McpErrorM Unit :=
    if validateRequests then
      match validateJsonrpcRequest req with
      | .ok () => validateMcpRequest req.method req.params
      | .error e => .error e
    else .ok ()
  match validated with
  | .error e => .error e
  | .ok () =>
      match routeRequest h req with
      | .ok v => .ok (responseSuccess req.id v)
      | .error e =>
          .ok (responseSuccess req.id
            (jsonErrorPayload (errorToCode e) (mcpErrorMessage e)))

/-- A concrete handler set: every routed handler reports success with a null
result. Used to instantiate router theorems on concrete inputs. -/
def trivialHandlers : McpHandlers :=
  { onInitialize := fun _ => .ok .null
    onPing := fun _ => .ok .null
    onToolsList := fun _ => .ok .null
    onToolsCall := fun _ => .ok .null
    onResourcesList := fun _ => .ok .null
    onResourcesRead := fun _ => .ok .null
    onResourcesSubscribe := fun _ => .ok .null
    onResourcesUnsubscribe := fun _ => .ok .null
    onPromptsList := fun _ => .ok .null
    onPromptsGet := fun _ => .ok .null
    onLoggingSetLevel := fun _ => .ok .null }

-- ============================================================================
-- Server lifecycle (LifecycleManager / ServerRunner, McpServer start/stop)
-- ============================================================================

/-- `LifecycleState` (src/server/lifecycle.rs:16-29). -/
inductive LifecycleStateM where
  | Created
  | Starting
  | Running
  | Stopping
  | Stopped
  | Error (msg : String)
deriving DecidableEq, Repr

/-- `LifecycleManager::can_start` (src/server/lifecycle.rs:129-132). -/
def canStart : LifecycleStateM → Bool
  | .Created => true
  | .Stopped => true
  | _ => false

/-- `LifecycleManager::can_stop` (src/server/lifecycle.rs:135-138). -/
def canStop : LifecycleStateM → Bool
  | .Running => true
  | .Starting => true
  | _ => false

/-- Outcome of the inner `server.start(transport)` / `server.stop()` call
that `ServerRunner` delegates to. -/
inductive InnerOutcome where
  | ok
  | failed (e : McpErrorM)

/-- `ServerRunner::start` (src/server/lifecycle.rs:199-246): refuse with a
typed `McpError::Protocol` when `can_start` is false, else go through
`Starting` and end `Running` on success or `Error(reason)` on failure
(error still propagated). Returns (caller result, final lifecycle
state). -/
def runnerStart (st : LifecycleStateM) (inner : InnerOutcome) :
    Except McpErrorM Unit × LifecycleStateM :=
  if !canStart st then
    (Except.error (.Protocol "Server cannot be started in current state"), st)
  else
    match inner with
    | .ok => (Except.ok (), .Running)
    | .failed e => (Except.error e, .Error (mcpErrorMessage e))

/-- `ServerRunner::stop` (src/server/lifecycle.rs:249-294): refuse with a
typed `McpError::Protocol` when `can_stop` is false, else go through
`Stopping` and end `Stopped` on success or `Error(reason)` on failure. -/
def runnerStop (st : LifecycleStateM) (inner : InnerOutcome) :
    Except McpErrorM Unit × LifecycleStateM :=
  if !canStop st then
    (Except.error (.Protocol "Server cannot be stopped in current state"), st)
  else
    match inner with
    | .ok => (Except.ok (), .Stopped)
    | .failed e => (Except.error e, .Error (mcpErrorMessage e))

/-- `ServerState` of `McpServer` (src/server/mcp_server.rs:71-82). -/
inductive ServerStateM where
  | Uninitialized
  | Initializing
  | Running
  | Stopping
  | Stopped
deriving DecidableEq, Repr

/-- `McpServer::stop` (src/server/mcp_server.rs:460-488): from `Running` set
`Stopping`, call `transport.stop()` (propagating its failure, in which
case the state stays `Stopping`), then set `Stopped`; from `Stopped`
return `Ok(())` immediately without touching the transport; from any other
state return a typed protocol error. Yields (caller result, final state,
whether `transport.stop()` was invoked). -/
def mcpServerStop (st : ServerStateM) (transportStop : InnerOutcome) :
    Except McpErrorM Unit × ServerStateM × Bool :=
  match st with
  | .Running =>
      match transportStop with
      | .ok => (Except.ok (), .Stopped, true)
      | .failed e => (Except.error e, .Stopping, true)
  | .Stopped => (Except.ok (), .Stopped, false)
  | _ => (Except.error (.Protocol "Server is not running"), st, false)

-- ============================================================================
-- Client session (ClientSession: connect / reconnect / heartbeat)
-- ============================================================================

/-- `SessionState` (src/client/session.rs:18-29). -/
inductive SessionStateM where
  | Disconnected
  | Connecting
  | Connected
  | Reconnecting
  | Failed (msg : String)
deriving DecidableEq, Repr

/-- `SessionConfig` (src/client/session.rs:39-56), restricted to the fields
the verified operations read. The `f64` field `reconnect_backoff` is
modelled as an exact rational; for the backoff values the code computes
(small integers times small powers) `f64` arithmetic is exact, so the
rational model coincides with the machine computation. -/
structure SessionConfigM where
  autoReconnect : Bool
  maxReconnectAttempts : Nat
  reconnectDelayMs : Nat
  maxReconnectDelayMs : Nat
  reconnectBackoff : ℚ

/-- The mutable session core: the `state` RwLock and the
`reconnect_attempts` counter (src/client/session.rs:80,90). -/
structure SessionCore where
  state : SessionStateM
  attempts : Nat
deriving DecidableEq, Repr

/-- The Rust `as u64` cast applied to the `f64` backoff product
(src/client/session.rs:257-264): truncation toward zero, saturating at 0
below and at `u64::MAX` above. -/
def ratToU64 (q : ℚ) : Nat :=
  min (Int.toNat q.floor) (2 ^ 64 - 1)

/-- The delay computation of `ClientSession::reconnect` for attempt number
`n` counted from 1 (src/client/session.rs:257-264):
`min((reconnect_delay_ms as f64 * reconnect_backoff.powi(n-1)) as u64,
max_reconnect_delay_ms)`. -/
def reconnectDelayMs (cfg : SessionConfigM) (n : Nat) : Nat :=
  min (ratToU64 ((cfg.reconnectDelayMs : ℚ) * cfg.reconnectBackoff ^ (n - 1)))
    cfg.maxReconnectDelayMs

/-- What a call to `ClientSession::reconnect` does before it re-enters
`connect` (src/client/session.rs:229-270). -/
inductive ReconnectStep where
  | rejectedDisabled
  | rejectedExhausted
  | sleepThenConnect (delayMs : Nat)
deriving DecidableEq, Repr

/-- The front half of `ClientSession::reconnect`
(src/client/session.rs:236-266): refuse when auto-reconnect is disabled
(state untouched); refuse with `Failed` when the counter has reached the
ceiling, without sleeping; otherwise increment the counter, transition to
`Reconnecting` and sleep the backoff delay before calling `connect`. -/
def reconnectStep (cfg : SessionConfigM) (s : SessionCore) : ReconnectStep × SessionCore :=
  if !cfg.autoReconnect then
    (.rejectedDisabled, s)
  else if s.attempts ≥ cfg.maxReconnectAttempts then
    (.rejectedExhausted, { s with state := .Failed "Max reconnection attempts exceeded" })
  else
    let n := s.attempts + 1
    (.sleepThenConnect (reconnectDelayMs cfg n),
      { state := .Reconnecting, attempts := n })

/-- How the handshake inside `ClientSession::connect` ended
(src/client/session.rs:170-202). -/
inductive ConnectOutcome where
  | success
  | failed (e : McpErrorM)
  | timedOut

/-- `ClientSession::connect` (src/client/session.rs:153-203): transition to
`Connecting`, run the handshake under the connection timeout; on success
transition to `Connected` and reset the attempts counter to 0; on failure
or timeout transition to `Failed(reason)` with the counter untouched. -/
def connectRun (s : SessionCore) (o : ConnectOutcome) : SessionCore :=
  match o with
  | .success => { state := .Connected, attempts := 0 }
  | .failed e => { s with state := .Failed (mcpErrorMessage e) }
  | .timedOut => { s with state := .Failed "Connection timeout" }

/-- Outcome of one heartbeat probe
(src/client/session.rs:355-358): `ok` — `ping()` returned `Ok` inside
`heartbeat_timeout_ms`; `errFast` — `ping()` returned `Err` inside the
timeout; `timedOut` — the `tokio::time::timeout` elapsed. -/
inductive ProbeOutcome where
  | ok
  | errFast (e : McpErrorM)
  | timedOut

/-- The two observation points for the session state: the `state` RwLock
read by `ClientSession::state()` / `is_connected()`
(src/client/session.rs:121-124) and the latest value on the `state_tx`
watch channel seen by `subscribe_state_changes` subscribers
(src/client/session.rs:127-129). -/
structure SessionView where
  rwState : SessionStateM
  watchState : SessionStateM
deriving DecidableEq, Repr

/-- One tick of the heartbeat task (src/client/session.rs:345-365): exit
when the RwLock state is no longer `Connected`; otherwise probe. Only
`ping_result.is_err()` — i.e. only the elapsed-timeout case — triggers the
disconnect branch, which sends `Disconnected` on the watch channel
(`state_tx.send`, src/client/session.rs:362) without writing the `state`
RwLock, then exits the loop. A probe returning `Err` within the timeout is
`Ok(Err(_))`, on which the loop just continues. Returns the new view and
whether the heartbeat loop continues. -/
def heartbeatTick (v : SessionView) (probe : ProbeOutcome) : SessionView × Bool :=
  if v.rwState ≠ .Connected then
    (v, false)
  else
    match probe with
    | .timedOut => ({ v with watchState := .Disconnected }, false)
    | .ok => (v, true)
    | .errFast _ => (v, true)

-- ============================================================================
-- HTTP client transport: request id substitution
-- ============================================================================

/-- `HttpClientTransport::next_request_id` (src/transport/http.rs:200-204):
increment the shared `u64` counter and return it. The counter arithmetic
is `u64`, modelled with an explicit wrap at `2^64`. Returns (fresh id,
new counter value). -/
def nextRequestId (counter : Nat) : Nat × Nat :=
  let c := (counter + 1) % 2 ^ 64
  (c, c)

/-- The id substitution at the head of `HttpClientTransport::send_request`
(src/transport/http.rs:231-241): a request whose id is JSON null gets a
fresh id drawn from the counter; any other id is kept unchanged. Returns
(transmitted id, new counter value). -/
def httpSubstituteId (counter : Nat) (id : RpcId) : RpcId × Nat :=
  match id with
  | .null =>
      let fresh := nextRequestId counter
      (.num (Int.ofNat fresh.1), fresh.2)
  | other => (other, counter)

-- ============================================================================
-- Helper lemmas
-- ============================================================================

theorem mem_pendingErase_key {t : PendingTable} {id : RpcId} {e : RpcId × CallerId}
    (h : e ∈ pendingErase t id) : e.1 ≠ id := by
  have := List.of_mem_filter h
  simpa using this

theorem pendingLookup_erase_self (t : PendingTable) (id : RpcId) :
    pendingLookup (pendingErase t id) id = none := by
  induction t with
  | nil => rfl
  | cons e rest ih =>
      by_cases he : e.1 = id
      · simpa [pendingErase, he] using ih
      · simpa [pendingErase, pendingLookup, he] using ih

theorem keysNodup_pendingInsert (t : PendingTable) (id : RpcId) (c : CallerId)
    (h : keysNodup t) : keysNodup (pendingInsert t id c) := by
  unfold keysNodup pendingInsert
  rw [List.map_cons]
  refine List.nodup_cons.mpr ⟨?_, ?_⟩
  · intro hmem
    rcases List.mem_map.mp hmem with ⟨e, he, hfst⟩
    exact (mem_pendingErase_key he) hfst
  · exact h.sublist ((List.filter_sublist t).map Prod.fst)

theorem pendingLookup_insert_self (t : PendingTable) (id : RpcId) (c : CallerId) :
    pendingLookup (pendingInsert t id c) id = some c := by
  simp [pendingInsert, pendingLookup]

theorem length_filter_split {α : Type} (l : List α) (p : α → Bool) :
    (l.filter p).length + (l.filter (fun a => !(p a))).length = l.length := by
  induction l with
  | nil => rfl
  | cons a rest ih =>
      cases hp : p a <;> simp [List.filter_cons, hp] <;> omega

theorem removeClientIds_singleton (clients : ClientRegistry) (b : String) :
    removeClientIds clients [b] = clients.filter (fun c => !(c.1 == b)) := rfl

theorem filter_ne_key_eq_filter_ok (l : ClientRegistry) (b : String)
    (hnd : (l.map Prod.fst).Nodup)
    (hb : (l.filter (fun c => !c.2)).map Prod.fst = [b]) :
    l.filter (fun c => !(c.1 == b)) = l.filter (fun c => c.2) := by
  induction l with
  | nil => simp at hb
  | cons c cs ih =>
      rw [List.map_cons, List.nodup_cons] at hnd
      cases hc2 : c.2 with
      | true =>
          have hb2 : (cs.filter (fun c => !c.2)).map Prod.fst = [b] := by
            simpa [List.filter_cons, hc2] using hb
          have hbmem : b ∈ cs.map Prod.fst := by
            have hmem : b ∈ (cs.filter (fun c => !c.2)).map Prod.fst := by
              rw [hb2]; exact List.mem_singleton.mpr rfl
            rcases List.mem_map.mp hmem with ⟨e, he, hfst⟩
            exact List.mem_map.mpr ⟨e, (List.filter_sublist cs).subset he, hfst⟩
          have hne : (c.1 == b) = false := by
            refine beq_eq_false_iff_ne.mpr ?_
            intro hcb
            exact hnd.1 (hcb ▸ hbmem)
          simp only [List.filter_cons, hc2, hne, Bool.not_false, if_true]
          rw [ih hnd.2 hb2]
      | false =>
          have hb2 : c.1 = b ∧ (cs.filter (fun c => !c.2)).map Prod.fst = [] := by
            simpa [List.filter_cons, hc2] using hb
          have hnil : cs.filter (fun c => !c.2) = [] := by
            cases hf : cs.filter (fun c => !c.2) with
            | nil => rfl
            | cons x xs =>
                have h22 := hb2.2
                rw [hf] at h22
                simp at h22
          have hallok : ∀ e ∈ cs, e.2 = true := by
            intro e he
            by_contra hne2
            have he2 : e.2 = false := by
              cases hee : e.2
              · rfl
              · exact absurd hee hne2
            have hin : e ∈ cs.filter (fun c => !c.2) :=
              List.mem_filter.mpr ⟨he, by simp [he2]⟩
            rw [hnil] at hin
            exact absurd hin (List.not_mem_nil e)
          have hkeep : ∀ e ∈ cs, (!(e.1 == b)) = true := by
            intro e he
            have hne3 : e.1 ≠ b := by
              intro heb
              have hb3 : b ∈ cs.map Prod.fst := List.mem_map.mpr ⟨e, he, heb⟩
              rw [← hb2.1] at hb3
              exact hnd.1 hb3
            simp [hne3]
          have hcbeq : (c.1 == b) = true := beq_iff_eq.mpr hb2.1
          simp only [List.filter_cons, hc2, hcbeq, Bool.not_true, if_false]
          rw [List.filter_eq_self.mpr hkeep, List.filter_eq_self.mpr hallok]

theorem ratFloor_eq_intFloor (q : ℚ) : q.floor = ⌊q⌋ :=
  (Rat.floor_def' q).trans Rat.floor_def.symm

theorem ratToU64_natCast (n : ℕ) (h : n ≤ 2 ^ 64 - 1) : ratToU64 ((n : ℚ)) = n := by
  unfold ratToU64
  rw [ratFloor_eq_intFloor, Int.floor_natCast]
  simp
  omega

theorem ratToU64_eval (q : ℚ) (m : ℕ) (h1 : ⌊q⌋ = (m : ℤ)) (h2 : m ≤ 2 ^ 64 - 1) :
    ratToU64 q = m := by
  unfold ratToU64
  rw [ratFloor_eq_intFloor, h1]
  simp
  omega

-- ============================================================================
-- Claim theorems
-- ============================================================================

/-- C4: the claim states that while the session is Connected, every
heartbeat probe that fails or times out forces a transition away from
Connected observable both via the state-change subscription and via the
`state()` accessor. Evaluating the heartbeat tick at the failing inputs
shows otherwise: a probe that returns an error within the heartbeat
timeout leaves both observation points at Connected and the loop running
(only `ping_result.is_err()`, i.e. the elapsed timeout, triggers the
disconnect branch), and even a timed-out probe updates only the watch
channel — the `state` RwLock read by `state()` still holds Connected. -/
theorem heartbeat_probe_divergence :
    heartbeatTick ⟨.Connected, .Connected⟩ (.errFast (.Connection "ping failed"))
      = (⟨.Connected, .Connected⟩, true)
    ∧ (heartbeatTick ⟨.Connected, .Connected⟩ .timedOut).1.rwState = .Connected
    ∧ (heartbeatTick ⟨.Connected, .Connected⟩ .timedOut).1.watchState = .Disconnected := by
  exact ⟨rfl, rfl, rfl⟩

/-- C5: while the attempt counter is below `max_reconnect_attempts`,
`reconnect` for attempt n = attempts+1 (counting from 1) sleeps
`min(reconnect_delay_ms * reconnect_backoff^(n-1), max_reconnect_delay_ms)`
milliseconds before retrying; once the counter has reached the ceiling the
call is rejected (Failed state, reconnect-exhausted error) without any
sleep; and the counter is reset to 0 exactly on reaching Connected — the
success path of `connect` zeroes it, the failure and timeout paths leave
it untouched. -/
theorem reconnect_backoff_and_reset :
    (∀ (cfg : SessionConfigM) (s : SessionCore),
      cfg.autoReconnect = true →
      s.attempts < cfg.maxReconnectAttempts →
      reconnectStep cfg s
        = (.sleepThenConnect
            (min (ratToU64 ((cfg.reconnectDelayMs : ℚ) * cfg.reconnectBackoff ^ s.attempts))
              cfg.maxReconnectDelayMs),
           { state := .Reconnecting, attempts := s.attempts + 1 }))
    ∧ (∀ (cfg : SessionConfigM) (s : SessionCore),
      cfg.autoReconnect = true →
      cfg.maxReconnectAttempts ≤ s.attempts →
      reconnectStep cfg s
        = (.rejectedExhausted,
           { s with state := .Failed "Max reconnection attempts exceeded" }))
    ∧ (∀ s : SessionCore, connectRun s .success = { state := .Connected, attempts := 0 })
    ∧ (∀ (s : SessionCore) (e : McpErrorM),
        (connectRun s (.failed e)).attempts = s.attempts
        ∧ (connectRun s (.failed e)).state = .Failed (mcpErrorMessage e))
    ∧ (∀ s : SessionCore, (connectRun s .timedOut).attempts = s.attempts) := by
  refine ⟨?_, ?_, ?_, ?_, ?_⟩
  · intro cfg s h1 h2
    have h3 : ¬(s.attempts ≥ cfg.maxReconnectAttempts) := by omega
    simp [reconnectStep, h1, h3, reconnectDelayMs]
  · intro cfg s h1 h2
    have h3 : s.attempts ≥ cfg.maxReconnectAttempts := h2
    simp [reconnectStep, h1, h3]
  · intro s; rfl
  · intro s e; exact ⟨rfl, rfl⟩
  · intro s; rfl

/-- C5 witness: the spec scenario (`max_reconnect_attempts = 3`,
`reconnect_delay_ms = 100`, `reconnect_backoff = 2.0`): the three
admissible attempts sleep 100, 200 and 400 ms, the fourth call is
rejected without sleeping, and a successful connect resets the counter. -/
theorem reconnect_backoff_and_reset_witness :
    reconnectStep ⟨true, 3, 100, 30000, 2⟩ ⟨.Disconnected, 0⟩
      = (.sleepThenConnect 100, ⟨.Reconnecting, 1⟩)
    ∧ reconnectStep ⟨true, 3, 100, 30000, 2⟩ ⟨.Reconnecting, 1⟩
      = (.sleepThenConnect 200, ⟨.Reconnecting, 2⟩)
    ∧ reconnectStep ⟨true, 3, 100, 30000, 2⟩ ⟨.Reconnecting, 2⟩
      = (.sleepThenConnect 400, ⟨.Reconnecting, 3⟩)
    ∧ reconnectStep ⟨true, 3, 100, 30000, 2⟩ ⟨.Reconnecting, 3⟩
      = (.rejectedExhausted, ⟨.Failed "Max reconnection attempts exceeded", 3⟩)
    ∧ connectRun ⟨.Connecting, 3⟩ .success = ⟨.Connected, 0⟩ := by
  refine ⟨?_, ?_, ?_, ?_, ?_⟩
  · have h := reconnect_backoff_and_reset.1 ⟨true, 3, 100, 30000, 2⟩ ⟨.Disconnected, 0⟩
      rfl (by norm_num)
    rw [h]
    norm_num
    rw [ratToU64_eval (100 : ℚ) 100 (by simp) (by norm_num)]
    omega
  · have h := reconnect_backoff_and_reset.1 ⟨true, 3, 100, 30000, 2⟩ ⟨.Reconnecting, 1⟩
      rfl (by norm_num)
    rw [h]
    norm_num
    rw [ratToU64_eval (200 : ℚ) 200 (by simp) (by norm_num)]
    omega
  · have h := reconnect_backoff_and_reset.1 ⟨true, 3, 100, 30000, 2⟩ ⟨.Reconnecting, 2⟩
      rfl (by norm_num)
    rw [h]
    norm_num
    rw [ratToU64_eval (400 : ℚ) 400 (by simp) (by norm_num)]
    omega
  · exact reconnect_backoff_and_reset.2.1 ⟨true, 3, 100, 30000, 2⟩ ⟨.Reconnecting, 3⟩
      rfl (by norm_num)
  · exact reconnect_backoff_and_reset.2.2.1 ⟨.Connecting, 3⟩

/-- C6: on the server lifecycle state machine, start is permitted exactly in
`Created`/`Stopped` and stop exactly in `Running`/`Starting`; in any other
state the operation is rejected with a typed `McpError::Protocol` value
(the transition functions are total, so no panic is possible) and the
state is left unchanged. -/
theorem lifecycle_start_stop_guards :
    ∀ st : LifecycleStateM,
      (canStart st = true ↔ (st = .Created ∨ st = .Stopped))
      ∧ (canStop st = true ↔ (st = .Running ∨ st = .Starting))
      ∧ (canStart st = false →
          ∀ o, runnerStart st o
            = (Except.error (.Protocol "Server cannot be started in current state"), st))
      ∧ (canStop st = false →
          ∀ o, runnerStop st o
            = (Except.error (.Protocol "Server cannot be stopped in current state"), st)) := by
  intro st
  cases st <;> simp [canStart, canStop, runnerStart, runnerStop]

/-- C6 witness: concrete rejected operations — `start` while `Stopping` and
`stop` while `Created` both fail with the typed protocol error and leave
the state alone. -/
theorem lifecycle_start_stop_guards_witness :
    runnerStart .Stopping .ok
      = (Except.error (.Protocol "Server cannot be started in current state"), .Stopping)
    ∧ runnerStop .Created .ok
      = (Except.error (.Protocol "Server cannot be stopped in current state"), .Created) := by
  exact ⟨(lifecycle_start_stop_guards .Stopping).2.2.1 (by decide) .ok,
    (lifecycle_start_stop_guards .Created).2.2.2 (by decide) .ok⟩

/-- C9: the HTTP client transport substitutes a fresh id from the
strictly-increasing per-transport counter for a null request id — two
null-id requests in a row obtain distinct (increasing) ids while the
counter has not wrapped its 64-bit range — and transmits any non-null id
unchanged. -/
theorem http_request_id_substitution :
    (∀ (counter : Nat) (id : RpcId), id ≠ .null → httpSubstituteId counter id = (id, counter))
    ∧ (∀ counter : Nat, counter + 2 < 2 ^ 64 →
        (httpSubstituteId counter .null).1 = .num (Int.ofNat (counter + 1))
        ∧ (httpSubstituteId (httpSubstituteId counter .null).2 .null).1
            = .num (Int.ofNat (counter + 2))
        ∧ (httpSubstituteId counter .null).1
            ≠ (httpSubstituteId (httpSubstituteId counter .null).2 .null).1) := by
  constructor
  · intro counter id hid
    cases id with
    | null => exact absurd rfl hid
    | num n => rfl
    | str s => rfl
  · intro counter h
    have h1 : (counter + 1) % 2 ^ 64 = counter + 1 := Nat.mod_eq_of_lt (by omega)
    have h2 : (counter + 1 + 1) % 2 ^ 64 = counter + 2 := Nat.mod_eq_of_lt (by omega)
    refine ⟨?_, ?_, ?_⟩
    · simp [httpSubstituteId, nextRequestId]
      omega
    · simp [httpSubstituteId, nextRequestId]
      omega
    · simp [httpSubstituteId, nextRequestId]
      omega

/-- C9 witness: a fresh transport (counter 0) maps two null-id requests to
ids 1 and 2, and leaves a string id untouched. -/
theorem http_request_id_substitution_witness :
    httpSubstituteId 0 (.str "abc") = (.str "abc", 0)
    ∧ (httpSubstituteId 0 .null).1 = .num (Int.ofNat 1)
    ∧ (httpSubstituteId (httpSubstituteId 0 .null).2 .null).1 = .num (Int.ofNat 2)
    ∧ (httpSubstituteId 0 .null).1 ≠ (httpSubstituteId (httpSubstituteId 0 .null).2 .null).1 := by
  have h := http_request_id_substitution.2 0 (by decide)
  exact ⟨http_request_id_substitution.1 0 (.str "abc") (by simp),
    h.1, h.2.1, h.2.2⟩

/-- C10: calling `McpServer::stop` while the server state is already
`Stopped` returns success immediately, leaves the state `Stopped`, and
never invokes the transport's stop operation — whatever that operation
would have returned. -/
theorem server_stop_idempotent_when_stopped :
    ∀ o : InnerOutcome, mcpServerStop .Stopped o = (Except.ok (), .Stopped, false) := by
  intro o; rfl

/-- C1: on the multiplexed WebSocket client transport, with requests 1 and 2
pending and their responses arriving in the order 2 then 1, the receive
loop fulfills caller 2 with response 2 and caller 1 with response 1 (no
cross-delivery), removing both entries; and a response whose id matches no
pending entry is dropped with the state untouched and the loop — hence
the connection — not terminated. -/
theorem ws_client_correlates_responses :
    (∀ (c1 c2 : CallerId) (r1 r2 : JsonRpcResponseM) (cs : ConnState)
       (nq : List JsonRpcNotificationM),
      r1.id = .num 1 → r2.id = .num 2 →
      handleMessages
        { pending := [(.num 1, c1), (.num 2, c2)], connState := cs, notifOpen := true,
          delivered := [], notifQueue := nq }
        [.text (.resp r2), .text (.resp r1)]
      = { pending := [], connState := cs, notifOpen := true,
          delivered := [(c2, r2), (c1, r1)], notifQueue := nq })
    ∧ (∀ (st : RecvState) (r : JsonRpcResponseM),
        pendingLookup st.pending r.id = none →
        handleOneMessage st (.text (.resp r)) = (st, true)) := by
  constructor
  · intro c1 c2 r1 r2 cs nq h1 h2
    obtain ⟨j1, id1, res1⟩ := r1
    obtain ⟨j2, id2, res2⟩ := r2
    have h1x : id1 = .num 1 := h1
    have h2x : id2 = .num 2 := h2
    subst h1x
    subst h2x
    rfl
  · intro st r h
    simp [handleOneMessage, h]

/-- C1 witness: a concrete out-of-order run, plus a concrete unmatched
response that is dropped without ending the loop. -/
theorem ws_client_correlates_responses_witness :
    handleMessages
      { pending := [(.num 1, 0), (.num 2, 1)], connState := .Connected, notifOpen := true,
        delivered := [], notifQueue := [] }
      [.text (.resp ⟨"2.0", .num 2, none⟩), .text (.resp ⟨"2.0", .num 1, none⟩)]
    = { pending := [], connState := .Connected, notifOpen := true,
        delivered := [(1, ⟨"2.0", .num 2, none⟩), (0, ⟨"2.0", .num 1, none⟩)],
        notifQueue := [] }
    ∧ handleOneMessage
        { pending := [], connState := .Connected, notifOpen := true,
          delivered := [], notifQueue := [] }
        (.text (.resp ⟨"2.0", .num 3, none⟩))
      = ({ pending := [], connState := .Connected, notifOpen := true,
           delivered := [], notifQueue := [] }, true) := by
  exact ⟨ws_client_correlates_responses.1 0 1 ⟨"2.0", .num 1, none⟩ ⟨"2.0", .num 2, none⟩
      .Connected [] rfl rfl,
    ws_client_correlates_responses.2
      { pending := [], connState := .Connected, notifOpen := true,
        delivered := [], notifQueue := [] } ⟨"2.0", .num 3, none⟩ rfl⟩

/-- C2 counterexample: the claim states that after the caller's wait times
out, no entry keyed by the request id remains in the pending table. The
code's timeout path performs no removal: after `send_request` registers
id 1 and its wait times out, id 1 is still tracked. -/
theorem ws_pending_timeout_entry_remains_cex :
    pendingLookup
      (sendRequestFinishPending (sendRequestRegister [] (.num 1) 0) (.num 1) .timedOut)
      (.num 1) = some 0 := rfl

/-- C2 amended: at most one pending entry exists per id at any instant
(insertion replaces, preserving key uniqueness), and an id is no longer
tracked once the matching response fulfills its entry; after a caller
timeout, however, the entry remains in the table (until a later matching
response removes it, whose delivery then fails). -/
theorem ws_pending_table_lifecycle :
    (∀ (t : PendingTable) (id : RpcId) (c : CallerId),
      keysNodup t → keysNodup (sendRequestRegister t id c))
    ∧ (∀ (t : PendingTable) (id : RpcId) (c : CallerId),
        pendingLookup (sendRequestRegister t id c) id = some c)
    ∧ (∀ (st : RecvState) (r : JsonRpcResponseM) (c : CallerId),
        pendingLookup st.pending r.id = some c →
        pendingLookup ((handleOneMessage st (.text (.resp r))).1).pending r.id = none)
    ∧ (∀ (t : PendingTable) (id : RpcId) (c : CallerId) (o : WaitOutcome),
        pendingLookup (sendRequestFinishPending (sendRequestRegister t id c) id o) id
          = some c) := by
  refine ⟨?_, ?_, ?_, ?_⟩
  · intro t id c h
    exact keysNodup_pendingInsert t id c h
  · intro t id c
    exact pendingLookup_insert_self t id c
  · intro st r c h
    simp [handleOneMessage, h]
    exact pendingLookup_erase_self st.pending r.id
  · intro t id c o
    exact pendingLookup_insert_self t id c

/-- C2 witness: the amended behavior at concrete inputs — registering id 5
keeps keys unique, the entry is found, a matching response removes it, and
a timed-out wait leaves it in place. -/
theorem ws_pending_table_lifecycle_witness :
    keysNodup (sendRequestRegister [] (.num 5) 3)
    ∧ pendingLookup (sendRequestRegister [] (.num 5) 3) (.num 5) = some 3
    ∧ pendingLookup
        ((handleOneMessage
          { pending := [(.num 5, 3)], connState := .Connected, notifOpen := true,
            delivered := [], notifQueue := [] }
          (.text (.resp ⟨"2.0", .num 5, none⟩))).1).pending (.num 5) = none
    ∧ pendingLookup
        (sendRequestFinishPending (sendRequestRegister [] (.num 5) 3) (.num 5) .fulfilled)
        (.num 5) = some 3 := by
  refine ⟨?_, ?_, ?_, ?_⟩
  · exact ws_pending_table_lifecycle.1 [] (.num 5) 3 (by simp [keysNodup])
  · exact ws_pending_table_lifecycle.2.1 [] (.num 5) 3
  · exact ws_pending_table_lifecycle.2.2.1
      { pending := [(.num 5, 3)], connState := .Connected, notifOpen := true,
        delivered := [], notifQueue := [] } ⟨"2.0", .num 5, none⟩ 3 rfl
  · exact ws_pending_table_lifecycle.2.2.2 [] (.num 5) 3 .fulfilled

/-- C3 counterexample: the claim states the error response for an
unregistered method carries a MethodNotFound-class code. On a concrete
unknown method the router instead returns a success-shaped response whose
embedded error object carries INTERNAL_ERROR (-32603), which is not the
METHOD_NOT_FOUND code (-32601). -/
theorem unknown_method_internal_error_cex :
    handleRequest trivialHandlers true ⟨"2.0", .num 7, "no/such/method", none⟩
      = Except.ok (responseSuccess (.num 7)
          (jsonErrorPayload INTERNAL_ERROR ("Unknown method: " ++ "no/such/method")))
    ∧ INTERNAL_ERROR ≠ METHOD_NOT_FOUND := by
  exact ⟨rfl, by decide⟩

/-- C3 amended: for every request whose method is outside the fixed routed
set (with a well-formed envelope), `handle_request` returns — never
throws — a response with the request's id, but its error payload is a
success-shaped result embedding code INTERNAL_ERROR (-32603), not a
MethodNotFound-class code. -/
theorem unknown_method_error_response :
    ∀ (h : McpHandlers) (req : JsonRpcRequestM),
      req.jsonrpc = "2.0" →
      req.method ≠ "" →
      req.method ∉ routedMethods →
      handleRequest h true req
        = Except.ok (responseSuccess req.id
            (jsonErrorPayload INTERNAL_ERROR ("Unknown method: " ++ req.method))) := by
  intro h req hv hm hr
  simp only [routedMethods, List.mem_cons, List.not_mem_nil, or_false] at hr
  push_neg at hr
  obtain ⟨h1, h2, h3, h4, h5, h6, h7, h8, h9, h10, h11⟩ := hr
  have b1 := beq_eq_false_iff_ne.mpr h1
  have b4 := beq_eq_false_iff_ne.mpr h4
  have b6 := beq_eq_false_iff_ne.mpr h6
  have b7 := beq_eq_false_iff_ne.mpr h7
  have b8 := beq_eq_false_iff_ne.mpr h8
  have b10 := beq_eq_false_iff_ne.mpr h10
  have b11 := beq_eq_false_iff_ne.mpr h11
  simp [handleRequest, validateJsonrpcRequest, validateMcpRequest, routeRequest,
    hv, hm, h1, h2, h3, h4, h5, h6, h7, h8, h9, h10, h11,
    b1, b4, b6, b7, b8, b10, b11, errorToCode, mcpErrorMessage]

/-- C3 witness: the amended behavior at a concrete unknown method. -/
theorem unknown_method_error_response_witness :
    handleRequest trivialHandlers true ⟨"2.0", .str "a", "foo/bar", none⟩
      = Except.ok (responseSuccess (.str "a")
          (jsonErrorPayload INTERNAL_ERROR ("Unknown method: " ++ "foo/bar"))) := by
  exact unknown_method_error_response trivialHandlers ⟨"2.0", .str "a", "foo/bar", none⟩
    rfl (by decide) (by decide)

/-- C7: broadcasting a notification over a registry in which exactly one
peer's send fails delivers to the other N-1 peers, removes exactly the
failed peer (the registry keeps precisely the peers whose send
succeeded, and the failed id is gone), and the broadcast itself returns
success. -/
theorem broadcast_one_failed_peer :
    ∀ (clients : ClientRegistry) (b : String),
      (clients.map Prod.fst).Nodup →
      (clients.filter (fun c => !c.2)).map Prod.fst = [b] →
      (wsBroadcast clients).1.length + 1 = clients.length
      ∧ (∀ p ∈ clients, p.2 = true → p.1 ∈ (wsBroadcast clients).1)
      ∧ (wsBroadcast clients).2.1 = clients.filter (fun c => c.2)
      ∧ b ∉ ((wsBroadcast clients).2.1.map Prod.fst)
      ∧ (wsBroadcast clients).2.2 = Except.ok () := by
  intro clients b hnd hb
  have hrem : (wsBroadcast clients).2.1 = clients.filter (fun c => c.2) := by
    show removeClientIds clients ((clients.filter (fun c => !c.2)).map Prod.fst)
        = clients.filter (fun c => c.2)
    rw [hb, removeClientIds_singleton, filter_ne_key_eq_filter_ok clients b hnd hb]
  refine ⟨?_, ?_, hrem, ?_, rfl⟩
  · have hsplit := length_filter_split clients (fun c => c.2)
    have hone : (clients.filter (fun c => !c.2)).length = 1 := by
      have hlen := congrArg List.length hb
      simpa using hlen
    show ((clients.filter (fun c => c.2)).map Prod.fst).length + 1 = clients.length
    rw [List.length_map]
    omega
  · intro p hp hp2
    show p.1 ∈ (clients.filter (fun c => c.2)).map Prod.fst
    exact List.mem_map.mpr ⟨p, List.mem_filter.mpr ⟨hp, hp2⟩, rfl⟩
  · rw [hrem, ← filter_ne_key_eq_filter_ok clients b hnd hb]
    intro hmem
    rcases List.mem_map.mp hmem with ⟨e, he, hfst⟩
    have hcond := List.of_mem_filter he
    rw [hfst] at hcond
    simp at hcond

/-- C7 witness: three registered peers with the middle peer's channel
closed — the two healthy peers receive the notification, the failed one is
removed, and the call returns Ok. -/
theorem broadcast_one_failed_peer_witness :
    ((wsBroadcast [("a", true), ("b", false), ("c", true)]).1.length + 1 = 3)
    ∧ (wsBroadcast [("a", true), ("b", false), ("c", true)]).2.1
        = [("a", true), ("c", true)]
    ∧ "b" ∉ ((wsBroadcast [("a", true), ("b", false), ("c", true)]).2.1.map Prod.fst)
    ∧ (wsBroadcast [("a", true), ("b", false), ("c", true)]).2.2 = Except.ok () := by
  have h := broadcast_one_failed_peer [("a", true), ("b", false), ("c", true)] "b"
    (by simp) (by simp)
  refine ⟨h.1, ?_, h.2.2.2.1, h.2.2.2.2⟩
  rw [h.2.2.1]
  rfl

/-- C8 counterexample: the claim states that a request failing validation is
recovered locally into a protocol-shaped error response. On a concrete
request with a malformed envelope (`jsonrpc: "1.0"`), `handle_request`
instead propagates the validation failure as an error to its caller. -/
theorem validation_error_propagates_cex :
    handleRequest trivialHandlers true ⟨"1.0", .num 1, "ping", none⟩
      = Except.error (.Validation "Invalid JSON-RPC version") := rfl

/-- C8 amended: with request validation enabled, envelope or parameter
validation failures propagate as errors out of `handle_request` — every
error produced by the envelope validator, and every error produced by the
method-parameter validator on an envelope-valid request, is returned to
the caller unchanged; every request that passes both validators —
whatever the routing or handler outcome — is answered with an `Ok`
response carrying the request's id (handler and routing failures are
recovered locally into the embedded error payload). -/
theorem router_error_recovery_boundaries :
    (∀ (hd : McpHandlers) (req : JsonRpcRequestM) (e : McpErrorM),
      validateJsonrpcRequest req = Except.error e →
      handleRequest hd true req = Except.error e)
    ∧ (∀ (hd : McpHandlers) (req : JsonRpcRequestM) (e : McpErrorM),
      validateJsonrpcRequest req = Except.ok () →
      validateMcpRequest req.method req.params = Except.error e →
      handleRequest hd true req = Except.error e)
    ∧ (∀ (hd : McpHandlers) (req : JsonRpcRequestM),
      validateJsonrpcRequest req = Except.ok () →
      validateMcpRequest req.method req.params = Except.ok () →
      ∃ v : JsonV, handleRequest hd true req = Except.ok (responseSuccess req.id v)) := by
  refine ⟨?_, ?_, ?_⟩
  · intro hd req e hv
    simp [handleRequest, hv]
  · intro hd req e h1 h2
    simp [handleRequest, h1, h2]
  · intro hd req h1 h2
    cases hr : routeRequest hd req with
    | ok v => exact ⟨v, by simp [handleRequest, h1, h2, hr]⟩
    | error e =>
        exact ⟨jsonErrorPayload (errorToCode e) (mcpErrorMessage e),
          by simp [handleRequest, h1, h2, hr]⟩

/-- C8 witness: a malformed envelope propagates its validation error; a
well-formed envelope whose parameters fail validation (tools/call without
params) propagates the parameter error; a well-formed ping request is
answered with an Ok response carrying its id. -/
theorem router_error_recovery_boundaries_witness :
    handleRequest trivialHandlers true ⟨"2.5", .num 1, "ping", none⟩
      = Except.error (.Validation "Invalid JSON-RPC version")
    ∧ handleRequest trivialHandlers true ⟨"2.0", .num 3, "tools/call", none⟩
      = Except.error (.Validation ("Missing parameters for method: " ++ "tools/call"))
    ∧ ∃ v : JsonV, handleRequest trivialHandlers true ⟨"2.0", .num 2, "ping", none⟩
        = Except.ok (responseSuccess (.num 2) v) := by
  refine ⟨?_, ?_, ?_⟩
  · exact router_error_recovery_boundaries.1 trivialHandlers
      ⟨"2.5", .num 1, "ping", none⟩ (.Validation "Invalid JSON-RPC version") rfl
  · exact router_error_recovery_boundaries.2.1 trivialHandlers
      ⟨"2.0", .num 3, "tools/call", none⟩
      (.Validation ("Missing parameters for method: " ++ "tools/call")) rfl rfl
  · exact router_error_recovery_boundaries.2.2 trivialHandlers
      ⟨"2.0", .num 2, "ping", none⟩ rfl rfl

end McpSdk
